import Mathlib

/-!
Verification development for the waka-app media-catalog backend
(src/server.js: upload/catalog server, its redeployed variant, and the
chart server variant).

The JavaScript source is shallowly embedded: SQL rows become Lean
structures, the SQLite table becomes a Lean list of rows, route handlers
become pure Lean functions from (state, request) to (state, response),
and the event-driven server becomes a step relation over a server state.
JS falsy-coalescing (x || d), millisecond timestamps rendered in decimal,
the multer filename generator, SQL GROUP BY / MAX / ORDER BY ... LIMIT
and JS stable Array.prototype.sort are all modelled explicitly.
-/

namespace Waka

/-! ## JavaScript / SQL primitives -/

/-- One SQL value as returned by a SELECT: NULL, TEXT, or INTEGER. -/
inductive SqlVal where
  | null : SqlVal
  | text : String → SqlVal
  | int : Nat → SqlVal
deriving DecidableEq

/-- JS falsy-coalescing `x || d` on an optional string: both a missing
value (undefined / SQL NULL) and the empty string are falsy in JS. -/
def jsOr : Option String → String → String
  | none, d => d
  | some s, d => if s = "" then d else s

/-- Decimal digit character, as produced by JS number-to-string coercion. -/
def digitChar : Nat → Char
  | 0 => '0'
  | 1 => '1'
  | 2 => '2'
  | 3 => '3'
  | 4 => '4'
  | 5 => '5'
  | 6 => '6'
  | 7 => '7'
  | 8 => '8'
  | 9 => '9'
  | _ + 10 => '*'

/-- Decimal rendering of a Nat, as JS renders `Date.now()` when
concatenated into a string. -/
def toDecimal (n : Nat) : List Char :=
  if h : n < 10 then [digitChar n]
  else toDecimal (n / 10) ++ [digitChar (n % 10)]
termination_by n
decreasing_by
  exact Nat.div_lt_self (Nat.lt_of_lt_of_le (by omega) (Nat.le_of_not_lt h)) (by omega)

/-- The power of ten matching the digit count of n (helper for reading a
decimal rendering back). -/
def decBase (n : Nat) : Nat :=
  if n < 10 then 10 else 10 * decBase (n / 10)
termination_by n
decreasing_by
  rename_i h
  exact Nat.div_lt_self (Nat.lt_of_lt_of_le (by omega) (Nat.le_of_not_lt h)) (by omega)

/-- Reads a decimal digit list back into a number. -/
def fromDecimal (l : List Char) : Nat :=
  l.foldl (fun a c => 10 * a + (c.toNat - 48)) 0

/-- JS regex whitespace class membership (the characters matched by
the pattern used in the multer filename sanitizer). -/
def isJsSpace (c : Char) : Bool :=
  c = ' ' || c = '\t' || c = '\n' || c = '\r' || c = Char.ofNat 11 || c = Char.ofNat 12

/-- Core of the whitespace-run replacement: the Bool records whether the
previous character was whitespace (so a maximal run yields one underscore),
embedding the global replace of a whitespace-run regex by an underscore. -/
def sanitizeAux : Bool → List Char → List Char
  | _, [] => []
  | prevSpace, c :: cs =>
    if isJsSpace c then
      if prevSpace then sanitizeAux true cs else '_' :: sanitizeAux true cs
    else c :: sanitizeAux false cs

/-- originalname.replace of every maximal whitespace run by an underscore. -/
def sanitize (l : List Char) : List Char := sanitizeAux false l

/-- The multer diskStorage filename generator of the upload server:
Date.now() + a dash + the whitespace-sanitized original name. -/
def storageFilename (now : Nat) (originalName : String) : String :=
  String.mk (toDecimal now ++ '-' :: sanitize originalName.data)

/-! ## Stable sorting (JS Array.prototype.sort with a numeric comparator,
and SQL ORDER BY key DESC) -/

/-- Insert x in front of the first element whose key is not above x's key;
used by the stable descending insertion sort. -/
def insertByKeyDesc {α : Type} (key : α → Nat) (x : α) : List α → List α
  | [] => [x]
  | y :: ys => if key y ≤ key x then x :: y :: ys else y :: insertByKeyDesc key x ys

/-- Stable sort by descending numeric key: the model of both the JS
stable Array.prototype.sort with comparator (b.key - a.key) and SQL
ORDER BY key DESC (with ties kept in input order). -/
def sortByKeyDesc {α : Type} (key : α → Nat) : List α → List α
  | [] => []
  | x :: xs => insertByKeyDesc key x (sortByKeyDesc key xs)

/-- Order used by SQLite to return GROUP BY groups on a TEXT key:
NULL first, then BINARY ascending text order. -/
def optStrLe (a b : Option String) : Bool :=
  match a, b with
  | none, _ => true
  | some _, none => false
  | some x, some y => decide (x ≤ y)

/-- Insertion step of the ascending key sort for GROUP BY output order. -/
def insertKeyAsc (x : Option String) : List (Option String) → List (Option String)
  | [] => [x]
  | y :: ys => if optStrLe x y then x :: y :: ys else y :: insertKeyAsc x ys

/-- Ascending sort of grouping keys: the order in which SQLite returns
GROUP BY groups (NULL group first, then text ascending). -/
def sortKeysAsc : List (Option String) → List (Option String)
  | [] => []
  | x :: xs => insertKeyAsc x (sortKeysAsc xs)

/-! ## Catalog server (upload variant): schema, multer, routes -/

/-- One row of the tracks table of the upload server
(id INTEGER PRIMARY KEY AUTOINCREMENT, the nine metadata TEXT columns
bound from req.body, and the file / cover asset references). -/
structure Track where
  id : Nat
  title : Option String
  artist : Option String
  album : Option String
  release_date : Option String
  language : Option String
  country : Option String
  genre : Option String
  explicit : Option String
  bpm : Option String
  file : Option String
  cover : Option String
deriving DecidableEq

/-- One part of the multipart body handled by multer. -/
structure FilePart where
  originalName : String
deriving DecidableEq

/-- The req.body text fields of POST /api/upload (absent field = undefined,
bound as SQL NULL). -/
structure UploadBody where
  title : Option String
  artist : Option String
  album : Option String
  release_date : Option String
  language : Option String
  country : Option String
  genre : Option String
  explicit : Option String
  bpm : Option String
deriving DecidableEq

/-- An upload request: body fields, the optional audio and cover parts,
and the Date.now() values observed at each multer filename callback
(one per asset write). -/
structure UploadRequest where
  body : UploadBody
  audio : Option FilePart
  cover : Option FilePart
  audioTime : Nat
  coverTime : Nat
deriving DecidableEq

/-- The on-disk blob store: the uploads directory (audio assets) and the
covers directory (cover assets), as multer diskStorage routes them by
field name. -/
structure BlobStore where
  uploads : List String
  covers : List String
deriving DecidableEq

/-- An HTTP response: status code and the JSON payload rendered as text. -/
structure Response where
  status : Nat
  body : String
deriving DecidableEq

/-- The users table row of the upload server. -/
structure UserRow where
  username : String
  email : String
  password : String
deriving DecidableEq

/-- The full mutable state of the upload server: blob directories,
tracks table, users table. -/
structure SState where
  blobs : BlobStore
  catalog : List Track
  users : List UserRow
deriving DecidableEq

/-- The largest id present in the tracks table (0 when empty). -/
def maxId (rows : List Track) : Nat :=
  rows.foldr (fun r m => max r.id m) 0

/-- SQLite AUTOINCREMENT: the next assigned rowid is above every existing id. -/
def nextId (rows : List Track) : Nat := maxId rows + 1

/-- The row built by the INSERT INTO tracks statement of POST /api/upload:
the nine req.body fields, the generated audio filename, and the generated
cover filename or NULL. -/
def insertedTrack (rows : List Track) (b : UploadBody)
    (audioFile : String) (coverFile : Option String) : Track :=
  { id := nextId rows
    title := b.title
    artist := b.artist
    album := b.album
    release_date := b.release_date
    language := b.language
    country := b.country
    genre := b.genre
    explicit := b.explicit
    bpm := b.bpm
    file := some audioFile
    cover := coverFile }

/-- The multer middleware phase of POST /api/upload: each present part is
written to its directory under its generated filename, before the route
handler runs. -/
def writeBlobs (bs : BlobStore) (req : UploadRequest) : BlobStore :=
  let b1 :=
    match req.audio with
    | some f => { bs with uploads := bs.uploads ++ [storageFilename req.audioTime f.originalName] }
    | none => bs
  match req.cover with
  | some f => { b1 with covers := b1.covers ++ [storageFilename req.coverTime f.originalName] }
  | none => b1

/-- The route handler body of POST /api/upload, after multer ran: reading
req.files.audio[0] with no audio part throws and the catch answers 500
"Upload failed"; otherwise the INSERT runs, answering 500 "DB insert
failed" when the database errors (dbFail) and 200 otherwise. -/
def uploadHandler (cat : List Track) (req : UploadRequest) (dbFail : Bool) :
    List Track × Response :=
  match req.audio with
  | none => (cat, ⟨500, "Upload failed"⟩)
  | some a =>
    if dbFail then (cat, ⟨500, "DB insert failed"⟩)
    else
      (insertedTrack cat req.body (storageFilename req.audioTime a.originalName)
          (req.cover.map fun c => storageFilename req.coverTime c.originalName) :: cat,
        ⟨200, "Track uploaded successfully!"⟩)

/-- POST /api/upload end to end: multer writes the blobs, then the handler
conditionally inserts the metadata row. -/
def uploadRoute (s : SState) (req : UploadRequest) (dbFail : Bool) :
    SState × Response :=
  let bs := writeBlobs s.blobs req
  let hr := uploadHandler s.catalog req dbFail
  ({ s with blobs := bs, catalog := hr.1 }, hr.2)

/-- GET /api/tracks: SELECT * FROM tracks ORDER BY id DESC. -/
def tracksRoute (rows : List Track) : List Track :=
  sortByKeyDesc (fun r => r.id) rows

/-- Rendering of an optional TEXT column value. -/
def optVal : Option String → SqlVal
  | none => SqlVal.null
  | some s => SqlVal.text s

/-- The JSON object SELECT * produces for one tracks row: exactly the
columns of the CREATE TABLE statement, nothing else. -/
def rowJson (r : Track) : List (String × SqlVal) :=
  [ ("id", SqlVal.int r.id)
  , ("title", optVal r.title)
  , ("artist", optVal r.artist)
  , ("album", optVal r.album)
  , ("release_date", optVal r.release_date)
  , ("language", optVal r.language)
  , ("country", optVal r.country)
  , ("genre", optVal r.genre)
  , ("explicit", optVal r.explicit)
  , ("bpm", optVal r.bpm)
  , ("file", optVal r.file)
  , ("cover", optVal r.cover) ]

/-- The JSON array GET /api/tracks responds with. -/
def tracksRouteJson (rows : List Track) : List (List (String × SqlVal)) :=
  (tracksRoute rows).map rowJson

/-- A 400-class (client-error) HTTP status. -/
def clientError (n : Nat) : Prop := 400 ≤ n ∧ n < 500

instance : DecidablePred clientError := fun n => by
  unfold clientError; infer_instance

/-! ## Artist roster (GET /api/artists) -/

/-- One entry of the GET /api/artists response. -/
structure ArtistEntry where
  name : Option String
  trackCount : Nat
  cover : String
deriving DecidableEq

/-- The rows of one GROUP BY artist group: exact (SQL) equality on the
artist column, NULLs grouped together. -/
def artistGroupRows (rows : List Track) (a : Option String) : List Track :=
  rows.filter (fun r => r.artist == a)

/-- SQLite MAX over the TEXT cover column of a group: NULLs are ignored,
the greatest string under BINARY order is returned, NULL when the group
has no non-NULL cover. -/
def sqlMaxText : List String → Option String
  | [] => none
  | c :: cs =>
    match sqlMaxText cs with
    | none => some c
    | some m => some (if decide (c ≤ m) then m else c)

/-- MAX(cover) of one artist group. -/
def groupCover (rows : List Track) (a : Option String) : Option String :=
  sqlMaxText ((artistGroupRows rows a).filterMap (fun r => r.cover))

/-- The distinct grouping keys in the order SQLite returns the groups. -/
def artistKeys (rows : List Track) : List (Option String) :=
  sortKeysAsc ((rows.map (fun r => r.artist)).dedup)

/-- The rows.map step of the /api/artists handler applied to the SQL
result: name, trackCount, and r.cover || "default.jpg". -/
def groupEntries (rows : List Track) : List ArtistEntry :=
  (artistKeys rows).map (fun a =>
    ⟨a, (artistGroupRows rows a).length, jsOr (groupCover rows a) "default.jpg"⟩)

/-- GET /api/artists end to end: the mapped groups, stable-sorted by
descending trackCount (artists.sort with comparator b.trackCount -
a.trackCount). -/
def artistsRoute (rows : List Track) : List ArtistEntry :=
  sortByKeyDesc (fun e => e.trackCount) (groupEntries rows)

/-! ## Register / login routes (they never touch tracks or blobs) -/

/-- POST /api/register: INSERT INTO users; a constraint violation
(dbErr) answers 400 and leaves the table unchanged. -/
def registerRoute (users : List UserRow) (u e p : String) (dbErr : Bool) :
    List UserRow × Response :=
  if dbErr then (users, ⟨400, "User already exists"⟩)
  else (users ++ [⟨u, e, p⟩], ⟨200, "Registration successful"⟩)

/-! ## Upload server as a transition system (exposed API operations) -/

/-- One exposed operation of the upload server. -/
inductive Op1 where
  | upload (req : UploadRequest) (dbFail : Bool)
  | register (u e p : String) (dbErr : Bool)
  | login (u p : String)
  | getTracks
  | getArtists

/-- State transition of the upload server: only /api/upload writes blobs
or tracks; /api/register writes users; reads and login change nothing. -/
def step1 (s : SState) : Op1 → SState
  | .upload req dbFail => (uploadRoute s req dbFail).1
  | .register u e p dbErr => { s with users := (registerRoute s.users u e p dbErr).1 }
  | .login _ _ => s
  | .getTracks => s
  | .getArtists => s

/-- The states of the upload server reachable from the empty store
through the exposed operations. -/
inductive Reach1 : SState → Prop where
  | init : Reach1 ⟨⟨[], []⟩, [], []⟩
  | step (s : SState) (op : Op1) : Reach1 s → Reach1 (step1 s op)

/-- The audio asset reference of a row is non-null and resolves to a blob
present in the uploads directory of the given blob store. -/
def fileOk (bs : BlobStore) (r : Track) : Prop :=
  ∃ n, r.file = some n ∧ n ∈ bs.uploads

/-! ## Chart server (third variant): schema and routes -/

/-- One row of the chart server's tracks table:
title / artist / cover TEXT, plays INTEGER DEFAULT 0,
top_monday INTEGER DEFAULT 0. -/
structure MTrack where
  id : Nat
  title : Option String
  artist : Option String
  cover : Option String
  plays : Nat
  top_monday : Nat
deriving DecidableEq

/-- The column set SELECTed by GET /api/top-monday
(id, title, artist, cover, plays). -/
structure MondayEntry where
  id : Nat
  title : Option String
  artist : Option String
  cover : Option String
  plays : Nat
deriving DecidableEq

/-- Projection of a tracks row onto the SELECTed columns. -/
def mondayProj (t : MTrack) : MondayEntry :=
  ⟨t.id, t.title, t.artist, t.cover, t.plays⟩

/-- The rows picked by GET /api/top-monday before projection:
WHERE top_monday = 1 ORDER BY plays DESC LIMIT 20. -/
def topMondaySelected (rows : List MTrack) : List MTrack :=
  (sortByKeyDesc (fun t => t.plays) (rows.filter (fun t => t.top_monday == 1))).take 20

/-- GET /api/top-monday: the selected rows, projected to the SELECT list.
A pure function of the local tracks table: no external feed is consulted. -/
def topMondayRoute (rows : List MTrack) : List MondayEntry :=
  (topMondaySelected rows).map mondayProj

/-- One upstream chart item as the last.fm feed delivers it: optional
name, optional artist object name, optional image array whose entries
carry an optional text URL per resolution tier. -/
structure UpTrack where
  name : Option String
  artistName : Option String
  images : Option (List (Option String))
deriving DecidableEq

/-- The data.tracks (or data.albums) object of the upstream payload,
which may lack the inner track list. -/
structure TracksField where
  track : Option (List UpTrack)
deriving DecidableEq

/-- The parsed upstream payload, which may lack the tracks object. -/
structure ChartPayload where
  tracks : Option TracksField
deriving DecidableEq

/-- One normalized entry of the chart responses. -/
structure ChartEntry where
  title : String
  artist : String
  cover : String
deriving DecidableEq

/-- t.image?.[2]?.["#text"]: the image URL at resolution tier 2, when the
image array, its third entry and its text field are all present. -/
def tier2Image (t : UpTrack) : Option String :=
  (t.images.bind (fun l => l.get? 2)).bind id

/-- The per-item normalization of the chart routes: t.name || "Unknown",
t.artist?.name || "Unknown", tier-2 image || "/covers/default.png". -/
def normEntry (t : UpTrack) : ChartEntry :=
  ⟨jsOr t.name "Unknown", jsOr t.artistName "Unknown",
    jsOr (tier2Image t) "/covers/default.png"⟩

/-- data.tracks && data.tracks.track: the upstream item list, when both
levels are present. -/
def trackList (p : ChartPayload) : Option (List UpTrack) :=
  p.tracks.bind (fun f => f.track)

/-- The (list ? list.map(...) : []) normalization shared by the chart
routes: an empty array when the upstream payload lacks the item list. -/
def normalizeChart (p : ChartPayload) : List ChartEntry :=
  match trackList p with
  | none => []
  | some ts => ts.map normEntry

/-- A chart route response: a normalized entry array, or the 500 payload
produced by the catch branch on fetch/parse failure. -/
inductive ChartResp where
  | ok (entries : List ChartEntry)
  | err (status : Nat) (msg : String)
deriving DecidableEq

/-- GET /api/top-songs: normalize the fetched payload; a fetch or parse
failure is caught and answered 500 for this chart kind only. -/
def topSongsRoute : Except Unit ChartPayload → ChartResp
  | .error _ => .err 500 "Failed to fetch top songs"
  | .ok p => .ok (normalizeChart p)

/-- GET /api/top-albums: same normalization over the albums feed. -/
def topAlbumsRoute : Except Unit ChartPayload → ChartResp
  | .error _ => .err 500 "Failed to fetch top albums"
  | .ok p => .ok (normalizeChart p)

/-- GET /api/top-malawi: same normalization over the regional feed. -/
def topMalawiRoute : Except Unit ChartPayload → ChartResp
  | .error _ => .err 500 "Failed to fetch Malawi tracks"
  | .ok p => .ok (normalizeChart p)

/-! ## Chart server as a transition system (exposed API operations) -/

/-- The users table row of the chart server. -/
structure MUser where
  fullname : String
  email : String
  password : String
deriving DecidableEq

/-- The mutable state of the chart server: users table, tracks table,
uploads directory. -/
structure MState where
  users : List MUser
  tracks : List MTrack
  uploadsDir : List String
deriving DecidableEq

/-- The largest id present in the chart server's tracks table. -/
def mMaxId (rows : List MTrack) : Nat :=
  rows.foldr (fun r m => max r.id m) 0

/-- The suffix of a filename from its last dot, modelling path.extname
for ordinary names (empty when the name has no dot). -/
def lastDotSuffix : List Char → List Char
  | [] => []
  | c :: cs =>
    match lastDotSuffix cs with
    | [] => if c = '.' then c :: cs else []
    | r => r

/-- The filename generator of the chart server's multer storage:
Date.now() + path.extname(file.originalname). -/
def singleUploadName (now : Nat) (originalName : String) : String :=
  String.mk (toDecimal now ++ lastDotSuffix originalName.data)

/-- Modelled from the spec: the repository's chart server creates the
plays-bearing tracks table but ships no route that inserts into it; per
the spec's ingestion contract, ingestion inserts exactly one Track row
carrying the metadata and the optional spotlight flag, the play count
starts at the schema default 0, and no engagement counter is touched at
ingestion time. -/
def ingestTrack (rows : List MTrack) (title artist cover : Option String)
    (spotlight : Nat) : List MTrack :=
  rows ++ [⟨mMaxId rows + 1, title, artist, cover, 0, spotlight⟩]

/-- One exposed operation of the chart server (plus the spec-modelled
ingestion, the only writer of the tracks table). -/
inductive MOp where
  | register (fullname email password : String) (dbErr : Bool)
  | login (email password : String)
  | topSongs (r : Except Unit ChartPayload)
  | topAlbums (r : Except Unit ChartPayload)
  | topMalawi (r : Except Unit ChartPayload)
  | readTopMonday
  | uploadSingle (originalName : String) (now : Nat)
  | ingest (title artist cover : Option String) (spotlight : Nat)

/-- State transition of the chart server: register writes users,
the single-file upload writes a blob, ingestion appends a tracks row
with plays 0; every other operation is a pure read. No operation updates
the plays column of an existing row. -/
def mstep (s : MState) : MOp → MState
  | .register f e p dbErr =>
    if dbErr then s else { s with users := s.users ++ [⟨f, e, p⟩] }
  | .login _ _ => s
  | .topSongs _ => s
  | .topAlbums _ => s
  | .topMalawi _ => s
  | .readTopMonday => s
  | .uploadSingle n now => { s with uploadsDir := s.uploadsDir ++ [singleUploadName now n] }
  | .ingest t a c sp => { s with tracks := ingestTrack s.tracks t a c sp }

/-- The chart server states reachable from the empty store through the
exposed operations. -/
inductive MReachable : MState → Prop where
  | init : MReachable ⟨[], [], []⟩
  | step (s : MState) (op : MOp) : MReachable s → MReachable (mstep s op)

/-! ## User portfolio (spec-modelled) -/

/-- A user profile as the portfolio endpoint summarizes it. -/
structure PUser where
  id : Nat
  username : String
  bio : String
  joined : Nat
deriving DecidableEq

/-- A catalog track as the portfolio endpoint sees it: its id and the
optional owning-user reference. -/
structure PTrack where
  id : Nat
  title : Option String
  uploaded_by : Option Nat
deriving DecidableEq

/-- Modelled from the spec: the repository exposes no user-portfolio
route in src; per the spec, GET /api/user-portfolio/:userId returns the
profile summary of the user with the given identifier paired with that
user's tracks newest first, and for a nonexistent identifier an explicit
null summary with an empty track list — a success in both cases, never
an error. -/
def userPortfolio (users : List PUser) (tracks : List PTrack) (userId : Nat) :
    Option PUser × List PTrack :=
  match users.find? (fun u => u.id == userId) with
  | none => (none, [])
  | some u => (some u, sortByKeyDesc (fun t => t.id) (tracks.filter (fun t => t.uploaded_by == some userId)))

/-! ## Ingestion events (filename uniqueness claim) -/

/-- One ingestion event: a request identity, the Date.now() value its
multer filename callback observed, and the client's original filename. -/
structure IngestEvent where
  reqId : Nat
  time : Nat
  originalName : String
deriving DecidableEq

/-- The stored asset name an ingestion event produces. -/
def eventStoredName (e : IngestEvent) : String :=
  storageFilename e.time e.originalName

/-! ## Concrete scenario inputs -/

/-- The empty upload-server state (fresh database, empty directories). -/
def initState : SState := ⟨⟨[], []⟩, [], []⟩

/-- An upload body with every text field absent. -/
def emptyBody : UploadBody :=
  ⟨none, none, none, none, none, none, none, none, none⟩

/-- The spec's upload scenario: audio song.mp3, cover art.png,
title Test, artist Ann, bpm 120. -/
def scenarioReq : UploadRequest :=
  { body := { emptyBody with title := some "Test", artist := some "Ann", bpm := some "120" }
    audio := some ⟨"song.mp3"⟩
    cover := some ⟨"art.png"⟩
    audioTime := 1700000000000
    coverTime := 1700000000001 }

/-- A multipart request carrying no audio part at all. -/
def noAudioReq : UploadRequest :=
  { body := emptyBody, audio := none, cover := none, audioTime := 0, coverTime := 0 }

/-- A catalog row whose cover is the empty string (a legal TEXT value). -/
def emptyCoverRow : Track :=
  { id := 1, title := some "T", artist := some "Ann", album := none,
    release_date := none, language := none, country := none, genre := none,
    explicit := none, bpm := none, file := some "f.mp3", cover := some "" }

/-- Two chart-server tracks rows, both spotlighted. -/
def demoMondayRows : List MTrack :=
  [ ⟨1, some "A", some "X", none, 5, 1⟩
  , ⟨2, some "B", some "Y", none, 9, 1⟩
  , ⟨3, some "C", some "Z", none, 7, 0⟩ ]

/-- A demo portfolio user set. -/
def demoUsers : List PUser := [⟨1, "ann", "bio", 10⟩]

/-! ## Lemmas about the stable descending sort -/

theorem mem_insertByKeyDesc {α : Type} (key : α → Nat) (x a : α) (l : List α) :
    a ∈ insertByKeyDesc key x l ↔ a = x ∨ a ∈ l := by
  induction l with
  | nil => simp [insertByKeyDesc]
  | cons y ys ih =>
    by_cases h : key y ≤ key x
    · simp [insertByKeyDesc, h]
    · simp only [insertByKeyDesc, if_neg h, List.mem_cons, ih]
      tauto

theorem mem_sortByKeyDesc {α : Type} (key : α → Nat) (a : α) (l : List α) :
    a ∈ sortByKeyDesc key l ↔ a ∈ l := by
  induction l with
  | nil => simp [sortByKeyDesc]
  | cons x xs ih => simp [sortByKeyDesc, mem_insertByKeyDesc, ih]

theorem pairwise_insertByKeyDesc {α : Type} (key : α → Nat) (x : α) (l : List α)
    (h : l.Pairwise (fun a b => key b ≤ key a)) :
    (insertByKeyDesc key x l).Pairwise (fun a b => key b ≤ key a) := by
  induction l with
  | nil => simp [insertByKeyDesc]
  | cons y ys ih =>
    rcases List.pairwise_cons.mp h with ⟨hy, hys⟩
    by_cases hk : key y ≤ key x
    · rw [insertByKeyDesc, if_pos hk]
      refine List.pairwise_cons.mpr ⟨?_, h⟩
      intro b hb
      rcases List.mem_cons.mp hb with rfl | hb
      · exact hk
      · exact le_trans (hy b hb) hk
    · rw [insertByKeyDesc, if_neg hk]
      refine List.pairwise_cons.mpr ⟨?_, ih hys⟩
      intro b hb
      rcases (mem_insertByKeyDesc key x b ys).mp hb with rfl | hb
      · exact Nat.le_of_lt (Nat.lt_of_not_le hk)
      · exact hy b hb

theorem sortByKeyDesc_sorted {α : Type} (key : α → Nat) (l : List α) :
    (sortByKeyDesc key l).Pairwise (fun a b => key b ≤ key a) := by
  induction l with
  | nil => simp [sortByKeyDesc]
  | cons x xs ih => exact pairwise_insertByKeyDesc key x _ ih

theorem filter_insertByKeyDesc_eq {α : Type} (key : α → Nat) (x : α) (l : List α)
    (c : Nat) (hx : key x = c) :
    (insertByKeyDesc key x l).filter (fun a => key a == c)
      = x :: l.filter (fun a => key a == c) := by
  induction l with
  | nil => simp [insertByKeyDesc, List.filter_cons, hx]
  | cons y ys ih =>
    by_cases hk : key y ≤ key x
    · rw [insertByKeyDesc, if_pos hk, List.filter_cons, if_pos (by simp [hx])]
    · have hyc : ¬ key y = c := by omega
      rw [insertByKeyDesc, if_neg hk, List.filter_cons, if_neg (by simp [hyc]), ih,
        List.filter_cons, if_neg (by simp [hyc])]

theorem filter_insertByKeyDesc_ne {α : Type} (key : α → Nat) (x : α) (l : List α)
    (c : Nat) (hx : ¬ key x = c) :
    (insertByKeyDesc key x l).filter (fun a => key a == c)
      = l.filter (fun a => key a == c) := by
  induction l with
  | nil => simp [insertByKeyDesc, List.filter_cons, hx]
  | cons y ys ih =>
    by_cases hk : key y ≤ key x
    · rw [insertByKeyDesc, if_pos hk, List.filter_cons, if_neg (by simp [hx])]
    · rw [insertByKeyDesc, if_neg hk, List.filter_cons, ih, List.filter_cons]

theorem sortByKeyDesc_filter_stable {α : Type} (key : α → Nat) (l : List α) (c : Nat) :
    (sortByKeyDesc key l).filter (fun a => key a == c)
      = l.filter (fun a => key a == c) := by
  induction l with
  | nil => rfl
  | cons x xs ih =>
    by_cases hx : key x = c
    · rw [sortByKeyDesc, filter_insertByKeyDesc_eq key x _ c hx, ih,
        List.filter_cons, if_pos (by simp [hx])]
    · rw [sortByKeyDesc, filter_insertByKeyDesc_ne key x _ c hx, ih,
        List.filter_cons, if_neg (by simp [hx])]

theorem insertByKeyDesc_eq_cons {α : Type} (key : α → Nat) (x : α) (l : List α)
    (h : ∀ y ∈ l, key y ≤ key x) : insertByKeyDesc key x l = x :: l := by
  cases l with
  | nil => rfl
  | cons y ys => rw [insertByKeyDesc, if_pos (h y (List.mem_cons_self y ys))]

theorem sortByKeyDesc_cons_of_max {α : Type} (key : α → Nat) (x : α) (l : List α)
    (h : ∀ y ∈ l, key y ≤ key x) :
    sortByKeyDesc key (x :: l) = x :: sortByKeyDesc key l := by
  rw [sortByKeyDesc, insertByKeyDesc_eq_cons]
  intro y hy
  exact h y ((mem_sortByKeyDesc key y l).mp hy)

theorem sortByKeyDesc_eq_self {α : Type} (key : α → Nat) (l : List α)
    (h : ∀ a ∈ l, key a = 0) : sortByKeyDesc key l = l := by
  induction l with
  | nil => rfl
  | cons x xs ih =>
    rw [sortByKeyDesc, ih (fun a ha => h a (List.mem_cons_of_mem x ha)),
      insertByKeyDesc_eq_cons]
    intro y hy
    rw [h y (List.mem_cons_of_mem x hy), h x (List.mem_cons_self x xs)]

/-! ## Lemmas about the ascending key sort (GROUP BY output order) -/

theorem insertKeyAsc_perm (x : Option String) (l : List (Option String)) :
    (insertKeyAsc x l).Perm (x :: l) := by
  induction l with
  | nil => exact List.Perm.refl _
  | cons y ys ih =>
    by_cases h : optStrLe x y
    · rw [insertKeyAsc, if_pos h]
    · rw [insertKeyAsc, if_neg h]
      exact (ih.cons y).trans (List.Perm.swap x y ys)

theorem sortKeysAsc_perm (l : List (Option String)) : (sortKeysAsc l).Perm l := by
  induction l with
  | nil => exact List.Perm.refl _
  | cons x xs ih =>
    exact (insertKeyAsc_perm x (sortKeysAsc xs)).trans (ih.cons x)

theorem artistKeys_nodup (rows : List Track) : (artistKeys rows).Nodup :=
  ((sortKeysAsc_perm _).nodup_iff).mpr (List.nodup_dedup _)

theorem mem_artistKeys (rows : List Track) (a : Option String) :
    a ∈ artistKeys rows ↔ a ∈ rows.map (fun r => r.artist) := by
  rw [artistKeys, (sortKeysAsc_perm _).mem_iff, List.mem_dedup]

/-! ## Lemmas about the decimal rendering of timestamps -/

theorem digitChar_toNat (d : Nat) (h : d < 10) : (digitChar d).toNat = 48 + d := by
  interval_cases d <;> rfl

theorem digitChar_ne_dash (d : Nat) (h : d < 10) : digitChar d ≠ '-' := by
  interval_cases d <;> decide

theorem toDecimal_foldl (n : Nat) : ∀ a : Nat,
    (toDecimal n).foldl (fun a c => 10 * a + (c.toNat - 48)) a = a * decBase n + n := by
  induction n using Nat.strong_induction_on with
  | _ n ih =>
    intro a
    by_cases h : n < 10
    · rw [toDecimal.eq_def, dif_pos h, List.foldl_cons, List.foldl_nil,
        digitChar_toNat n h, decBase.eq_def, if_pos h]
      omega
    · have hdiv : n / 10 < n := Nat.div_lt_self (by omega) (by omega)
      have hb : decBase n = 10 * decBase (n / 10) := by
        rw [decBase.eq_def, if_neg h]
      have hdig : (digitChar (n % 10)).toNat = 48 + n % 10 :=
        digitChar_toNat (n % 10) (Nat.mod_lt n (by omega))
      rw [toDecimal.eq_def, dif_neg h, List.foldl_append, ih (n / 10) hdiv a,
        List.foldl_cons, List.foldl_nil, hdig, hb,
        Nat.mul_left_comm a 10 (decBase (n / 10))]
      generalize a * decBase (n / 10) = m
      omega

theorem toDecimal_inj {m n : Nat} (h : toDecimal m = toDecimal n) : m = n := by
  have hm := toDecimal_foldl m 0
  have hn := toDecimal_foldl n 0
  rw [h] at hm
  omega

theorem toDecimal_ne_dash (n : Nat) : ∀ c ∈ toDecimal n, c ≠ '-' := by
  induction n using Nat.strong_induction_on with
  | _ n ih =>
    intro c hc
    by_cases h : n < 10
    · rw [toDecimal.eq_def, dif_pos h] at hc
      simp at hc
      subst hc
      exact digitChar_ne_dash n h
    · rw [toDecimal.eq_def, dif_neg h] at hc
      rcases List.mem_append.mp hc with h1 | h2
      · exact ih (n / 10) (Nat.div_lt_self (by omega) (by omega)) c h1
      · simp at h2
        subst h2
        exact digitChar_ne_dash (n % 10) (Nat.mod_lt n (by omega))

theorem append_dash_inj : ∀ (a b x y : List Char),
    (∀ c ∈ a, c ≠ '-') → (∀ c ∈ b, c ≠ '-') →
    a ++ '-' :: x = b ++ '-' :: y → a = b := by
  intro a
  induction a with
  | nil =>
    intro b x y _ hb h
    cases b with
    | nil => rfl
    | cons d ds =>
      simp only [List.nil_append, List.cons_append, List.cons.injEq] at h
      exact absurd h.1.symm (hb d (List.mem_cons_self d ds))
  | cons c cs ih =>
    intro b x y ha hb h
    cases b with
    | nil =>
      simp only [List.nil_append, List.cons_append, List.cons.injEq] at h
      exact absurd h.1 (ha c (List.mem_cons_self c cs))
    | cons d ds =>
      simp only [List.cons_append, List.cons.injEq] at h
      rw [h.1, ih ds x y (fun e he => ha e (List.mem_cons_of_mem c he))
        (fun e he => hb e (List.mem_cons_of_mem d he)) h.2]

theorem storageFilename_time_inj {t1 t2 : Nat} {o1 o2 : String}
    (h : storageFilename t1 o1 = storageFilename t2 o2) : t1 = t2 := by
  have hd : toDecimal t1 ++ '-' :: sanitize o1.data
      = toDecimal t2 ++ '-' :: sanitize o2.data := congrArg String.data h
  exact toDecimal_inj
    (append_dash_inj _ _ _ _ (toDecimal_ne_dash t1) (toDecimal_ne_dash t2) hd)

/-! ## Lemmas about the upload route -/

theorem writeBlobs_uploads (bs : BlobStore) (req : UploadRequest) :
    (writeBlobs bs req).uploads
      = bs.uploads ++ (match req.audio with
          | some f => [storageFilename req.audioTime f.originalName]
          | none => []) := by
  unfold writeBlobs
  cases req.audio <;> cases req.cover <;> simp

theorem writeBlobs_covers (bs : BlobStore) (req : UploadRequest) :
    (writeBlobs bs req).covers
      = bs.covers ++ (match req.cover with
          | some f => [storageFilename req.coverTime f.originalName]
          | none => []) := by
  unfold writeBlobs
  cases req.audio <;> cases req.cover <;> simp

theorem uploadRoute_blobs (s : SState) (req : UploadRequest) (dbFail : Bool) :
    (uploadRoute s req dbFail).1.blobs = writeBlobs s.blobs req := rfl

theorem uploadRoute_catalog_cases (s : SState) (req : UploadRequest) (dbFail : Bool) :
    (uploadRoute s req dbFail).1.catalog = s.catalog
  ∨ ∃ a, req.audio = some a
      ∧ dbFail = false
      ∧ (uploadRoute s req dbFail).1.catalog
          = insertedTrack s.catalog req.body
              (storageFilename req.audioTime a.originalName)
              (req.cover.map fun c => storageFilename req.coverTime c.originalName)
            :: s.catalog := by
  cases ha : req.audio with
  | none => left; simp [uploadRoute, uploadHandler, ha]
  | some a =>
    cases dbFail with
    | true => left; simp [uploadRoute, uploadHandler, ha]
    | false => right; exact ⟨a, rfl, rfl, by simp [uploadRoute, uploadHandler, ha]⟩

theorem id_le_maxId (r : Track) (rows : List Track) (h : r ∈ rows) :
    r.id ≤ maxId rows := by
  induction rows with
  | nil => cases h
  | cons x xs ih =>
    rw [maxId, List.foldr_cons]
    rcases List.mem_cons.mp h with rfl | h
    · exact Nat.le_max_left _ _
    · exact le_trans (ih h) (Nat.le_max_right _ _)

/-! ## Claim C6: stored asset name uniqueness -/

/-- C6, as stated, is false: two distinct ingestion events (distinct
requests) that observe the same millisecond value of Date.now() and carry
the same original filename produce the very same stored asset name, so
ingestions can collide. -/
theorem c6_distinct_events_may_collide :
    ¬ (∀ e1 e2 : IngestEvent, e1 ≠ e2 →
        eventStoredName e1 ≠ eventStoredName e2) := by
  intro h
  exact h ⟨0, 1700000000000, "song.mp3"⟩ ⟨1, 1700000000000, "song.mp3"⟩
    (by decide) rfl

/-- C6 amended: two ingestions observing distinct ingestion timestamps
always produce distinct stored asset names, whatever the original names:
the timestamp is the decimal prefix before the first dash of the name,
and no dash occurs inside it. -/
theorem c6_amended_distinct_times_no_collision (e1 e2 : IngestEvent)
    (h : e1.time ≠ e2.time) : eventStoredName e1 ≠ eventStoredName e2 :=
  fun hc => h (storageFilename_time_inj hc)

/-- Witness for the amended C6 theorem at two concrete ingestion events. -/
theorem c6_amended_witness :
    (⟨0, 1, "a.mp3"⟩ : IngestEvent).time ≠ (⟨1, 2, "a.mp3"⟩ : IngestEvent).time
  ∧ eventStoredName ⟨0, 1, "a.mp3"⟩ ≠ eventStoredName ⟨1, 2, "a.mp3"⟩ :=
  ⟨by decide, c6_amended_distinct_times_no_collision ⟨0, 1, "a.mp3"⟩ ⟨1, 2, "a.mp3"⟩ (by decide)⟩

/-! ## Claim C2: rejection of uploads without an audio part -/

/-- C2, as stated, is false on the status class: a request with no audio
part makes the handler throw on req.files.audio[0], the catch answers
500 "Upload failed" — a server-error status, not a 400-class one. The
no-row-written half does hold. -/
theorem c2_no_audio_is_500_not_400 :
    (uploadRoute initState noAudioReq false).2.status = 500
  ∧ ¬ clientError (uploadRoute initState noAudioReq false).2.status
  ∧ (uploadRoute initState noAudioReq false).1.catalog = initState.catalog := by
  decide

/-- C2 amended: an upload whose multipart body has no audio part is
always answered with the 500 "Upload failed" error and never writes a
tracks row, whatever the prior state and the database outcome. -/
theorem c2_amended_no_audio_500_no_row (s : SState) (req : UploadRequest)
    (dbFail : Bool) (h : req.audio = none) :
    (uploadRoute s req dbFail).2 = ⟨500, "Upload failed"⟩
  ∧ (uploadRoute s req dbFail).1.catalog = s.catalog := by
  simp [uploadRoute, uploadHandler, h]

/-- Witness for the amended C2 theorem at a concrete audio-less request. -/
theorem c2_amended_witness :
    (uploadRoute initState noAudioReq false).2 = ⟨500, "Upload failed"⟩
  ∧ (uploadRoute initState noAudioReq false).1.catalog = initState.catalog :=
  c2_amended_no_audio_500_no_row initState noAudioReq false rfl

/-! ## Claim C8: metadata-insert failure after blob writes -/

/-- C8: when the blob writes succeeded but the metadata insert fails, the
caller gets the 500 "DB insert failed" storage error, no tracks row is
added, and the blobs written by multer stay in the store un-rolled-back:
the final blob store is exactly the written one, still holding the audio
asset (and the cover asset when one was sent). -/
theorem c8_insert_failure_preserves_blobs (s : SState) (req : UploadRequest)
    (a : FilePart) (ha : req.audio = some a) :
    (uploadRoute s req true).2 = ⟨500, "DB insert failed"⟩
  ∧ (uploadRoute s req true).1.catalog = s.catalog
  ∧ (uploadRoute s req true).1.blobs = writeBlobs s.blobs req
  ∧ storageFilename req.audioTime a.originalName
      ∈ (uploadRoute s req true).1.blobs.uploads
  ∧ (∀ c, req.cover = some c →
      storageFilename req.coverTime c.originalName
        ∈ (uploadRoute s req true).1.blobs.covers) := by
  refine ⟨by simp [uploadRoute, uploadHandler, ha], by simp [uploadRoute, uploadHandler, ha],
    rfl, ?_, ?_⟩
  · rw [uploadRoute_blobs, writeBlobs_uploads, ha]
    simp
  · intro c hc
    rw [uploadRoute_blobs, writeBlobs_covers, hc]
    simp

/-- Witness for the C8 theorem at the concrete scenario request. -/
theorem c8_witness :
    (uploadRoute initState scenarioReq true).2 = ⟨500, "DB insert failed"⟩
  ∧ (uploadRoute initState scenarioReq true).1.catalog = initState.catalog
  ∧ (uploadRoute initState scenarioReq true).1.blobs = writeBlobs initState.blobs scenarioReq
  ∧ storageFilename scenarioReq.audioTime (FilePart.mk "song.mp3").originalName
      ∈ (uploadRoute initState scenarioReq true).1.blobs.uploads
  ∧ (∀ c, scenarioReq.cover = some c →
      storageFilename scenarioReq.coverTime c.originalName
        ∈ (uploadRoute initState scenarioReq true).1.blobs.covers) :=
  c8_insert_failure_preserves_blobs initState scenarioReq ⟨"song.mp3"⟩ rfl

/-! ## Claim C1: successful upload round trip -/

/-- C1, as stated, is false: the spec's scenario upload succeeds, but the
entry GET /api/tracks returns for it carries no plays field at all (the
upload server's tracks table has no plays column, and the INSERT records
no spotlight flag or owning user either), so the read-back entry cannot
exhibit a play count of 0 as the claim demands. -/
theorem c1_no_plays_field_returned :
    ((tracksRouteJson (uploadRoute initState scenarioReq false).1.catalog).map
        (fun j => j.lookup "plays") = [none])
  ∧ ¬ ((tracksRouteJson (uploadRoute initState scenarioReq false).1.catalog).map
        (fun j => j.lookup "plays") = [some (SqlVal.int 0)]) := by
  have h0 : (tracksRouteJson (uploadRoute initState scenarioReq false).1.catalog).map
      (fun j => j.lookup "plays") = [none] := rfl
  refine ⟨h0, fun hcontra => ?_⟩
  rw [h0] at hcontra
  exact absurd hcontra (by decide)

/-- C1 amended: a success response to an upload carrying an audio file
means exactly one new tracks row was inserted, whose nine metadata
columns equal the supplied payload fields, whose file column is the
generated audio asset name and whose cover column is the generated cover
asset name (or NULL without a cover part); the subsequent GET /api/tracks
read (ordered by id descending) returns exactly that row first, ahead of
the previous listing. The row records no play count, spotlight flag or
owning user — the table has no such columns. -/
theorem c1_amended_upload_round_trip (s : SState) (req : UploadRequest)
    (a : FilePart) (dbFail : Bool) (ha : req.audio = some a)
    (hok : (uploadRoute s req dbFail).2.status = 200) :
    (uploadRoute s req dbFail).1.catalog
        = insertedTrack s.catalog req.body
            (storageFilename req.audioTime a.originalName)
            (req.cover.map fun c => storageFilename req.coverTime c.originalName)
          :: s.catalog
  ∧ insertedTrack s.catalog req.body
        (storageFilename req.audioTime a.originalName)
        (req.cover.map fun c => storageFilename req.coverTime c.originalName)
      = ⟨nextId s.catalog, req.body.title, req.body.artist, req.body.album,
          req.body.release_date, req.body.language, req.body.country,
          req.body.genre, req.body.explicit, req.body.bpm,
          some (storageFilename req.audioTime a.originalName),
          req.cover.map fun c => storageFilename req.coverTime c.originalName⟩
  ∧ tracksRoute (uploadRoute s req dbFail).1.catalog
      = insertedTrack s.catalog req.body
          (storageFilename req.audioTime a.originalName)
          (req.cover.map fun c => storageFilename req.coverTime c.originalName)
        :: tracksRoute s.catalog := by
  cases dbFail with
  | true =>
    exfalso
    have h5 : (uploadRoute s req true).2.status = 500 := by
      simp [uploadRoute, uploadHandler, ha]
    rw [h5] at hok
    exact absurd hok (by decide)
  | false =>
    have hcat : (uploadRoute s req false).1.catalog
        = insertedTrack s.catalog req.body
            (storageFilename req.audioTime a.originalName)
            (req.cover.map fun c => storageFilename req.coverTime c.originalName)
          :: s.catalog := by
      simp [uploadRoute, uploadHandler, ha]
    refine ⟨hcat, rfl, ?_⟩
    rw [hcat, tracksRoute, tracksRoute, sortByKeyDesc_cons_of_max]
    intro y hy
    have hle : y.id ≤ maxId s.catalog := id_le_maxId y s.catalog hy
    have hid : (insertedTrack s.catalog req.body
        (storageFilename req.audioTime a.originalName)
        (req.cover.map fun c => storageFilename req.coverTime c.originalName)).id
      = nextId s.catalog := rfl
    rw [hid, nextId]
    omega

/-- Witness for the amended C1 theorem at the spec's scenario upload. -/
theorem c1_amended_witness :
    (uploadRoute initState scenarioReq false).1.catalog
        = insertedTrack initState.catalog scenarioReq.body
            (storageFilename scenarioReq.audioTime (FilePart.mk "song.mp3").originalName)
            (scenarioReq.cover.map fun c => storageFilename scenarioReq.coverTime c.originalName)
          :: initState.catalog
  ∧ insertedTrack initState.catalog scenarioReq.body
        (storageFilename scenarioReq.audioTime (FilePart.mk "song.mp3").originalName)
        (scenarioReq.cover.map fun c => storageFilename scenarioReq.coverTime c.originalName)
      = ⟨nextId initState.catalog, scenarioReq.body.title, scenarioReq.body.artist,
          scenarioReq.body.album, scenarioReq.body.release_date, scenarioReq.body.language,
          scenarioReq.body.country, scenarioReq.body.genre, scenarioReq.body.explicit,
          scenarioReq.body.bpm,
          some (storageFilename scenarioReq.audioTime (FilePart.mk "song.mp3").originalName),
          scenarioReq.cover.map fun c => storageFilename scenarioReq.coverTime c.originalName⟩
  ∧ tracksRoute (uploadRoute initState scenarioReq false).1.catalog
      = insertedTrack initState.catalog scenarioReq.body
          (storageFilename scenarioReq.audioTime (FilePart.mk "song.mp3").originalName)
          (scenarioReq.cover.map fun c => storageFilename scenarioReq.coverTime c.originalName)
        :: tracksRoute initState.catalog :=
  c1_amended_upload_round_trip initState scenarioReq ⟨"song.mp3"⟩ false rfl rfl

/-! ## Claim C7: audio blob precedes the metadata row -/

/-- C7: in every state the upload server reaches through its exposed
operations, every tracks row has a non-null file reference resolving to
a blob present in the uploads directory; moreover the row a successful
upload inserts references a blob that the multer phase already put into
the blob store before the handler ran the INSERT (the state the insert
observes is writeBlobs of the prior store). -/
theorem c7_audio_blob_precedes_insert :
    (∀ s : SState, Reach1 s → ∀ r ∈ s.catalog, fileOk s.blobs r)
  ∧ (∀ (s : SState) (req : UploadRequest) (a : FilePart), req.audio = some a →
      fileOk (writeBlobs s.blobs req)
        (insertedTrack s.catalog req.body
          (storageFilename req.audioTime a.originalName)
          (req.cover.map fun c => storageFilename req.coverTime c.originalName))) := by
  have mono : ∀ (bs : BlobStore) (req : UploadRequest) (r : Track),
      fileOk bs r → fileOk (writeBlobs bs req) r := by
    intro bs req r hok
    rcases hok with ⟨n, hf, hm⟩
    refine ⟨n, hf, ?_⟩
    rw [writeBlobs_uploads]
    exact List.mem_append_left _ hm
  have fresh : ∀ (s : SState) (req : UploadRequest) (a : FilePart), req.audio = some a →
      fileOk (writeBlobs s.blobs req)
        (insertedTrack s.catalog req.body
          (storageFilename req.audioTime a.originalName)
          (req.cover.map fun c => storageFilename req.coverTime c.originalName)) := by
    intro s req a ha
    refine ⟨storageFilename req.audioTime a.originalName, rfl, ?_⟩
    rw [writeBlobs_uploads, ha]
    simp
  refine ⟨?_, fresh⟩
  intro s hs
  induction hs with
  | init => intro r hr; cases hr
  | step s op hsp ih =>
    cases op with
    | upload req dbFail =>
      intro r hr
      have hr2 : r ∈ (uploadRoute s req dbFail).1.catalog := hr
      have goal2 : fileOk (writeBlobs s.blobs req) r → fileOk (step1 s (Op1.upload req dbFail)).blobs r :=
        fun h => h
      rcases uploadRoute_catalog_cases s req dbFail with hsame | ⟨a, ha, _, hnew⟩
      · rw [hsame] at hr2
        exact goal2 (mono s.blobs req r (ih r hr2))
      · rw [hnew] at hr2
        rcases List.mem_cons.mp hr2 with rfl | hr3
        · exact goal2 (fresh s req a ha)
        · exact goal2 (mono s.blobs req r (ih r hr3))
    | register u e p dbErr =>
      intro r hr
      cases dbErr with
      | true => exact ih r hr
      | false => exact ih r hr
    | login u p => exact ih
    | getTracks => exact ih
    | getArtists => exact ih

/-- Witness for the C7 theorem: the state after one successful scenario
upload is reachable, and its single row's audio reference resolves into
its blob store. -/
theorem c7_witness :
    fileOk (step1 initState (Op1.upload scenarioReq false)).blobs
      (insertedTrack initState.catalog scenarioReq.body
        (storageFilename scenarioReq.audioTime (FilePart.mk "song.mp3").originalName)
        (scenarioReq.cover.map fun c => storageFilename scenarioReq.coverTime c.originalName)) :=
  c7_audio_blob_precedes_insert.1 (step1 initState (Op1.upload scenarioReq false))
    (Reach1.step initState (Op1.upload scenarioReq false) Reach1.init)
    _ (List.mem_cons_self _ _)

/-! ## Claim C4: artist roster -/

/-- C4, as stated, is false on the representative-cover policy: with one
Ann track whose cover column holds the empty string (a legal TEXT value),
MAX(cover) is the empty string — not missing — yet the route substitutes
the fixed default cover, because the JS fallback r.cover || "default.jpg"
also treats the empty string as falsy. -/
theorem c4_empty_cover_not_max :
    groupCover [emptyCoverRow] (some "Ann") = some ""
  ∧ artistsRoute [emptyCoverRow] = [⟨some "Ann", 1, "default.jpg"⟩]
  ∧ ¬ (artistsRoute [emptyCoverRow]).map (fun e => e.cover) = [""] := by
  decide

/-- C4 amended: the artist roster groups tracks by exact artist-string
equality (one entry per distinct artist value, every track's artist
covered), reports each group's track count, picks the group's maximum
cover value under the store's default ordering — substituting the fixed
default cover when that maximum is missing or empty — and returns the
groups stable-sorted by descending track count, ties keeping the
underlying store's group order (entries of equal count appear exactly in
their pre-sort order). -/
theorem c4_amended_artist_roster (rows : List Track) :
    (artistsRoute rows).Pairwise (fun a b => b.trackCount ≤ a.trackCount)
  ∧ (∀ c : Nat, (artistsRoute rows).filter (fun e => e.trackCount == c)
      = (groupEntries rows).filter (fun e => e.trackCount == c))
  ∧ ((groupEntries rows).map (fun e => e.name)).Nodup
  ∧ (∀ r ∈ rows, r.artist ∈ (groupEntries rows).map (fun e => e.name))
  ∧ (∀ e ∈ groupEntries rows,
      e.trackCount = (artistGroupRows rows e.name).length
      ∧ e.cover = jsOr (groupCover rows e.name) "default.jpg") := by
  have hmap : (groupEntries rows).map (fun e => e.name) = artistKeys rows := by
    rw [groupEntries, List.map_map]
    exact List.map_id _
  refine ⟨sortByKeyDesc_sorted _ _, fun c => sortByKeyDesc_filter_stable _ _ c, ?_, ?_, ?_⟩
  · rw [hmap]
    exact artistKeys_nodup rows
  · intro r hr
    rw [hmap]
    exact (mem_artistKeys rows r.artist).mpr (List.mem_map_of_mem _ hr)
  · intro e he
    rcases List.mem_map.mp he with ⟨a, _, rfl⟩
    exact ⟨rfl, rfl⟩

/-- Witness for the amended C4 theorem at a concrete two-artist catalog. -/
theorem c4_amended_witness :
    (artistsRoute [emptyCoverRow]).Pairwise (fun a b => b.trackCount ≤ a.trackCount)
  ∧ (artistsRoute [emptyCoverRow]).filter (fun e => e.trackCount == 1)
      = (groupEntries [emptyCoverRow]).filter (fun e => e.trackCount == 1)
  ∧ (⟨some "Ann", 1, "default.jpg"⟩ : ArtistEntry).trackCount
      = (artistGroupRows [emptyCoverRow] (some "Ann")).length :=
  ⟨(c4_amended_artist_roster [emptyCoverRow]).1,
   (c4_amended_artist_roster [emptyCoverRow]).2.1 1,
   ((c4_amended_artist_roster [emptyCoverRow]).2.2.2.2
      ⟨some "Ann", 1, "default.jpg"⟩ (by decide)).1⟩

/-! ## Claim C3: user portfolio (spec-modelled) -/

/-- C3: the user-portfolio operation is total — a success for every
identifier: an existing user yields a non-null summary (an empty
portfolio when none of the tracks is owned by the user), a nonexistent
identifier yields a null summary with an empty array, never an error. -/
theorem c3_user_portfolio_total (users : List PUser) (tracks : List PTrack)
    (uid : Nat) :
    ((∃ u ∈ users, u.id = uid) →
      ((userPortfolio users tracks uid).1.isSome = true))
  ∧ ((∃ u ∈ users, u.id = uid) → (∀ t ∈ tracks, ¬ t.uploaded_by = some uid) →
      (userPortfolio users tracks uid).2 = [])
  ∧ ((∀ u ∈ users, ¬ u.id = uid) →
      (userPortfolio users tracks uid).1 = none
      ∧ (userPortfolio users tracks uid).2 = []) := by
  refine ⟨?_, ?_, ?_⟩
  · rintro ⟨u, hu, hid⟩
    cases hf : users.find? (fun v => v.id == uid) with
    | none =>
      exfalso
      have := List.find?_eq_none.mp hf u hu
      simp [hid] at this
    | some v => simp [userPortfolio, hf]
  · intro _ hnone
    cases hf : users.find? (fun v => v.id == uid) with
    | none => simp [userPortfolio, hf]
    | some v =>
      have hfil : tracks.filter (fun t => t.uploaded_by == some uid) = [] := by
        rw [List.filter_eq_nil_iff]
        intro t ht
        simpa using hnone t ht
      simp [userPortfolio, hf, hfil, sortByKeyDesc]
  · intro hno
    have hf : users.find? (fun v => v.id == uid) = none :=
      List.find?_eq_none.mpr (fun u hu => by simpa using hno u hu)
    simp [userPortfolio, hf]

/-- Witness for the C3 theorem: an existing user with zero tracks, and a
nonexistent identifier. -/
theorem c3_witness :
    (userPortfolio demoUsers [] 1).1.isSome = true
  ∧ (userPortfolio demoUsers [] 1).2 = []
  ∧ (userPortfolio demoUsers [] 2).1 = none :=
  ⟨(c3_user_portfolio_total demoUsers [] 1).1 (by decide),
   (c3_user_portfolio_total demoUsers [] 1).2.1 (by decide) (by decide),
   ((c3_user_portfolio_total demoUsers [] 2).2.2 (by decide)).1⟩

/-! ## Claim C5: spotlight chart -/

/-- C5: for every tracks-table state, GET /api/top-monday returns at most
20 entries, ordered by descending play count, and each returned entry is
the projection of a row whose spotlight (top_monday) flag is set; the
route is a pure function of the local table — it consults no external
feed. -/
theorem c5_top_monday_spec (rows : List MTrack) :
    (topMondayRoute rows).length ≤ 20
  ∧ (topMondayRoute rows).Pairwise (fun a b => b.plays ≤ a.plays)
  ∧ (∀ e ∈ topMondaySelected rows, e.top_monday = 1)
  ∧ topMondayRoute rows = (topMondaySelected rows).map mondayProj := by
  refine ⟨?_, ?_, ?_, rfl⟩
  · rw [topMondayRoute, List.length_map, topMondaySelected]
    simp [List.length_take]
  · refine List.Pairwise.map mondayProj (fun a b h => h) ?_
    exact List.Pairwise.sublist (List.take_sublist 20 _) (sortByKeyDesc_sorted _ _)
  · intro e he
    have h1 : e ∈ sortByKeyDesc (fun t => t.plays)
        (rows.filter (fun t => t.top_monday == 1)) :=
      List.take_subset 20 _ he
    have h2 := (mem_sortByKeyDesc (fun t => t.plays) e _).mp h1
    have h3 := List.mem_filter.mp h2
    simpa using h3.2

/-- Witness for the C5 theorem at a concrete three-row table. -/
theorem c5_witness :
    (topMondayRoute demoMondayRows).length ≤ 20
  ∧ (⟨2, some "B", some "Y", none, 9, 1⟩ : MTrack).top_monday = 1 :=
  ⟨(c5_top_monday_spec demoMondayRows).1,
   (c5_top_monday_spec demoMondayRows).2.2.1 ⟨2, some "B", some "Y", none, 9, 1⟩ (by decide)⟩

/-! ## Claim C9: external chart normalization fallbacks -/

/-- C9: for each chart kind, an upstream payload lacking the expected
item list yields the empty array as a success (not an error), and each
normalized entry substitutes the literal Unknown for a missing title or
artist and the fixed default cover path for a missing tier-2 image. -/
theorem c9_chart_fallbacks :
    (∀ p : ChartPayload, trackList p = none →
        topSongsRoute (Except.ok p) = ChartResp.ok []
      ∧ topAlbumsRoute (Except.ok p) = ChartResp.ok []
      ∧ topMalawiRoute (Except.ok p) = ChartResp.ok [])
  ∧ (∀ t : UpTrack, t.name = none → (normEntry t).title = "Unknown")
  ∧ (∀ t : UpTrack, t.artistName = none → (normEntry t).artist = "Unknown")
  ∧ (∀ t : UpTrack, tier2Image t = none →
      (normEntry t).cover = "/covers/default.png") := by
  refine ⟨?_, ?_, ?_, ?_⟩
  · intro p hp
    refine ⟨?_, ?_, ?_⟩ <;>
      simp [topSongsRoute, topAlbumsRoute, topMalawiRoute, normalizeChart, hp]
  · intro t ht
    simp [normEntry, jsOr, ht]
  · intro t ht
    simp [normEntry, jsOr, ht]
  · intro t ht
    have : (normEntry t).cover = jsOr (tier2Image t) "/covers/default.png" := rfl
    rw [this, ht]
    rfl

/-- Witness for the C9 theorem at an empty upstream payload and a bare
upstream item. -/
theorem c9_witness :
    topSongsRoute (Except.ok (⟨none⟩ : ChartPayload)) = ChartResp.ok []
  ∧ (normEntry ⟨none, none, none⟩).title = "Unknown"
  ∧ (normEntry ⟨none, none, none⟩).cover = "/covers/default.png" :=
  ⟨(c9_chart_fallbacks.1 ⟨none⟩ rfl).1,
   c9_chart_fallbacks.2.1 ⟨none, none, none⟩ rfl,
   c9_chart_fallbacks.2.2.2 ⟨none, none, none⟩ rfl⟩

/-! ## Claim C10: the plays counter is never written -/

/-- C10: in every chart-server state reachable through the exposed
operations (with ingestion spec-modelled as the only tracks writer,
inserting at the schema default plays = 0), every row's play count is 0,
so all play counts coincide and the spotlight chart's ORDER BY plays DESC
never reorders: the selected rows are simply the first twenty flagged
rows in store order. -/
theorem c10_reachable_plays_zero (s : MState) (h : MReachable s) :
    (∀ t ∈ s.tracks, t.plays = 0)
  ∧ s.tracks.Pairwise (fun a b => a.plays = b.plays)
  ∧ topMondaySelected s.tracks
      = (s.tracks.filter (fun t => t.top_monday == 1)).take 20 := by
  have hz : ∀ t ∈ s.tracks, t.plays = 0 := by
    induction h with
    | init => intro t ht; cases ht
    | step s op hs ih =>
      cases op with
      | register f e p dbErr =>
        intro t ht
        cases dbErr with
        | true => exact ih t ht
        | false => exact ih t ht
      | login e p => exact ih
      | topSongs r => exact ih
      | topAlbums r => exact ih
      | topMalawi r => exact ih
      | readTopMonday => exact ih
      | uploadSingle n now => exact ih
      | ingest ti a c sp =>
        intro t ht
        have ht2 : t ∈ s.tracks ++ [⟨mMaxId s.tracks + 1, ti, a, c, 0, sp⟩] := ht
        rcases List.mem_append.mp ht2 with h1 | h1
        · exact ih t h1
        · simp at h1
          rw [h1]
  have hpw : ∀ (l : List MTrack), (∀ t ∈ l, t.plays = 0) →
      l.Pairwise (fun a b => a.plays = b.plays) := by
    intro l
    induction l with
    | nil => intro _; exact List.Pairwise.nil
    | cons x xs ih =>
      intro hall
      refine List.pairwise_cons.mpr
        ⟨?_, ih (fun t ht => hall t (List.mem_cons_of_mem x ht))⟩
      intro b hb
      rw [hall x (List.mem_cons_self x xs), hall b (List.mem_cons_of_mem x hb)]
  refine ⟨hz, hpw _ hz, ?_⟩
  rw [topMondaySelected, sortByKeyDesc_eq_self]
  intro t ht
  exact hz t (List.mem_filter.mp ht).1

/-- Witness for the C10 theorem: the state after one spec-modelled
ingestion is reachable and satisfies the invariant. -/
theorem c10_witness :
    topMondaySelected (mstep ⟨[], [], []⟩ (MOp.ingest (some "T") (some "Ann") none 1)).tracks
      = ((mstep ⟨[], [], []⟩ (MOp.ingest (some "T") (some "Ann") none 1)).tracks.filter
          (fun t => t.top_monday == 1)).take 20
  ∧ (⟨1, some "T", some "Ann", none, 0, 1⟩ : MTrack).plays = 0 :=
  ⟨(c10_reachable_plays_zero _
      (MReachable.step ⟨[], [], []⟩ (MOp.ingest (some "T") (some "Ann") none 1)
        MReachable.init)).2.2,
   (c10_reachable_plays_zero _
      (MReachable.step ⟨[], [], []⟩ (MOp.ingest (some "T") (some "Ann") none 1)
        MReachable.init)).1 ⟨1, some "T", some "Ann", none, 0, 1⟩ (by decide)⟩

end Waka
